import Mathlib

set_option maxRecDepth 100000

/-
Verification development for the freshservice repository (three Python scripts:
contract_assets.py, freshservice_hrms_termination.py, term_ticket_assets_note.py).
Each Lean definition below is a shallow embedding of a function or code block of
the source; HTTP servers and the filesystem appear as explicit environment
parameters, and side effects (API calls, prints, deletions) are returned as data.
-/

-- ===========================================================================
-- Shared character utilities (Python str.strip whitespace set and ASCII digits)
-- ===========================================================================

-- Whitespace characters recognised by Python str.strip and the regex class \s
-- (ASCII range): space, tab, newline, carriage return, vertical tab, form feed.
def isSpaceChar (c : Char) : Bool :=
  c = ' ' || c = '\t' || c = '\n' || c = '\r' || c.toNat = 11 || c.toNat = 12

-- ASCII digit test, the regex class \d restricted to ASCII as the scripts use it.
def isDigitChar (c : Char) : Bool :=
  c = '0' || c = '1' || c = '2' || c = '3' || c = '4' ||
  c = '5' || c = '6' || c = '7' || c = '8' || c = '9'

-- Python str.strip(): drop leading and trailing whitespace.
def pyStripL (s : List Char) : List Char :=
  ((s.dropWhile isSpaceChar).reverse.dropWhile isSpaceChar).reverse

def pyStrip (s : String) : String :=
  String.mk (pyStripL s.data)

def digitVal (c : Char) : Nat := c.toNat - 48

def digitChar (n : Nat) : Char := Char.ofNat (48 + n)

-- ===========================================================================
-- contract_assets.py, step 1: the module-level pagination loop.
--   while True:
--     response = requests.get(...page=page&per_page=100...)
--     if response.status_code != 200: print(error); break
--     assets = data.get("associated_assets", [])
--     if not assets: break
--     all_assets.extend(assets); page += 1
-- The server is a function from page number to the parsed response; asset
-- payloads are opaque (represented by Nat). The loop is given fuel; a result
-- with completed = true means one of the two break statements was reached,
-- so the fuel was not the reason the recursion stopped.
-- ===========================================================================

structure PageResponse where
  status : Nat
  associated_assets : List Nat
deriving DecidableEq

structure FetchResult where
  assets : List Nat
  errors : Nat
  calls : Nat
  completed : Bool
deriving DecidableEq

def fetchAssetsLoop (srv : Nat → PageResponse) : Nat → Nat → FetchResult
  | 0, _ => ⟨[], 0, 0, false⟩
  | fuel + 1, page =>
    let resp := srv page
    if resp.status ≠ 200 then ⟨[], 1, 1, true⟩
    else if resp.associated_assets = [] then ⟨[], 0, 1, true⟩
    else
      let r := fetchAssetsLoop srv fuel (page + 1)
      ⟨resp.associated_assets ++ r.assets, r.errors, r.calls + 1, r.completed⟩

-- The loop as run by the script: page starts at 1.
def fetchAllAssets (srv : Nat → PageResponse) (fuel : Nat) : FetchResult :=
  fetchAssetsLoop srv fuel 1

-- Concatenation of the asset arrays of n consecutive pages starting at a page.
def pagesConcat (srv : Nat → PageResponse) (start n : Nat) : List Nat :=
  match n with
  | 0 => []
  | k + 1 => (srv start).associated_assets ++ pagesConcat srv (start + 1) k

-- Concrete two-page server for the end-to-end scenario of claim C3:
-- page 1 returns 100 records, page 2 returns 40 records, later pages are empty.
def srvTwoPages : Nat → PageResponse := fun p =>
  if p = 1 then ⟨200, List.range 100⟩
  else if p = 2 then ⟨200, (List.range 40).map (fun n => 100 + n)⟩
  else ⟨200, []⟩

-- Concrete server whose second page fails, for the witness of claim C2.
def srvSecondFails : Nat → PageResponse := fun p =>
  if p = 1 then ⟨200, [7, 8]⟩ else ⟨500, []⟩

-- ===========================================================================
-- contract_assets.py, step 1 continued: reference resolution with caching.
-- dept_cache / location_cache / requester_cache are dictionaries; each
-- get_*_name function returns None for a falsy id, answers from the cache on
-- a hit, and otherwise performs one GET: on status 200 it extracts the name,
-- stores it in the cache and returns it; on any other status it prints an
-- error and returns None without touching the cache.
-- ===========================================================================

-- Parsed body of GET /api/v2/departments/id or /api/v2/locations/id:
-- .get("department", {}).get("name") may be absent, hence Option.
structure EntityResp where
  status : Nat
  name : Option String
deriving DecidableEq

-- Parsed body of GET /api/v2/requesters/id: first_name and last_name with
-- default "" (requester.get("first_name", "")).
structure RequesterResp where
  status : Nat
  first_name : String
  last_name : String
deriving DecidableEq

-- One record of the associated_assets array, as used by the CSV loop.
structure AssetRec where
  display_id : Option Nat
  asset_tag : Option String
  name : Option String
  department_id : Option Nat
  location_id : Option Nat
  user_id : Option Nat
deriving DecidableEq

-- A Python dict id -> cached name, newest binding first.
abbrev Cache := List (Nat × Option String)

def cacheFind (d : Nat) : Cache → Option (Option String)
  | [] => none
  | (k, v) :: rest => if k = d then some v else cacheFind d rest

def inCache (d : Nat) (c : Cache) : Bool := (cacheFind d c).isSome

-- Python truthiness of an optional integer id (None and 0 are falsy).
def pyTruthy : Option Nat → Bool
  | none => false
  | some n => n != 0

-- Result of one resolver invocation: returned value, cache afterwards, ids
-- for which a GET was issued during the invocation, number of error prints.
structure ResolveOut where
  value : Option String
  cache : Cache
  called : List Nat
  errors : Nat
deriving DecidableEq

def get_department_name (srv : Nat → EntityResp) (dept_id : Option Nat)
    (cache : Cache) : ResolveOut :=
  match dept_id with
  | none => ⟨none, cache, [], 0⟩
  | some d =>
    if d = 0 then ⟨none, cache, [], 0⟩
    else
      match cacheFind d cache with
      | some v => ⟨v, cache, [], 0⟩
      | none =>
        let r := srv d
        if r.status = 200 then ⟨r.name, (d, r.name) :: cache, [d], 0⟩
        else ⟨none, cache, [d], 1⟩

def get_location_name (srv : Nat → EntityResp) (loc_id : Option Nat)
    (cache : Cache) : ResolveOut :=
  match loc_id with
  | none => ⟨none, cache, [], 0⟩
  | some d =>
    if d = 0 then ⟨none, cache, [], 0⟩
    else
      match cacheFind d cache with
      | some v => ⟨v, cache, [], 0⟩
      | none =>
        let r := srv d
        if r.status = 200 then ⟨r.name, (d, r.name) :: cache, [d], 0⟩
        else ⟨none, cache, [d], 1⟩

-- requester_name = f"{first} {last}".strip() if first or last else None,
-- with first and last already stripped.
def get_requester_name (srv : Nat → RequesterResp) (user_id : Option Nat)
    (cache : Cache) : ResolveOut :=
  match user_id with
  | none => ⟨none, cache, [], 0⟩
  | some d =>
    if d = 0 then ⟨none, cache, [], 0⟩
    else
      match cacheFind d cache with
      | some v => ⟨v, cache, [], 0⟩
      | none =>
        let r := srv d
        if r.status = 200 then
          let f := pyStrip r.first_name
          let l := pyStrip r.last_name
          let nm := if f = "" ∧ l = "" then none else some (pyStrip (f ++ " " ++ l))
          ⟨nm, (d, nm) :: cache, [d], 0⟩
        else ⟨none, cache, [d], 1⟩

-- The three by-id endpoints of the enrichment phase.
structure Servers where
  dept : Nat → EntityResp
  loc : Nat → EntityResp
  req : Nat → RequesterResp

inductive RefKind
  | dept
  | loc
  | req
deriving DecidableEq

structure CallEv where
  kind : RefKind
  id : Nat
deriving DecidableEq

-- One CSV row: display_id, asset_tag, name, department, location, requester.
structure Row where
  display_id : Option Nat
  asset_tag : Option String
  name : Option String
  department : Option String
  location : Option String
  requester : Option String
deriving DecidableEq

structure RunState where
  deptCache : Cache
  locCache : Cache
  reqCache : Cache
  calls : List CallEv
  errors : Nat
  rows : List Row
deriving DecidableEq

-- Body of the CSV for-loop for one asset:
--   dept_name = get_department_name(dept_id) if dept_id else None
--   loc_name = get_location_name(loc_id) if loc_id else None
--   requester_name = get_requester_name(user_id) if user_id else None
--   writer.writerow([...])
def processAsset (env : Servers) (st : RunState) (a : AssetRec) : RunState :=
  let dOut := if pyTruthy a.department_id
    then get_department_name env.dept a.department_id st.deptCache
    else ⟨none, st.deptCache, [], 0⟩
  let lOut := if pyTruthy a.location_id
    then get_location_name env.loc a.location_id st.locCache
    else ⟨none, st.locCache, [], 0⟩
  let rOut := if pyTruthy a.user_id
    then get_requester_name env.req a.user_id st.reqCache
    else ⟨none, st.reqCache, [], 0⟩
  { deptCache := dOut.cache
    locCache := lOut.cache
    reqCache := rOut.cache
    calls := st.calls ++ dOut.called.map (fun i => CallEv.mk RefKind.dept i)
      ++ lOut.called.map (fun i => CallEv.mk RefKind.loc i)
      ++ rOut.called.map (fun i => CallEv.mk RefKind.req i)
    errors := st.errors + dOut.errors + lOut.errors + rOut.errors
    rows := st.rows ++ [⟨a.display_id, a.asset_tag, a.name, dOut.value, lOut.value, rOut.value⟩] }

def processAssets (env : Servers) : List AssetRec → RunState → RunState
  | [], st => st
  | a :: rest, st => processAssets env rest (processAsset env st a)

def initialState : RunState := ⟨[], [], [], [], 0, []⟩

-- Foreign-key id of an asset record for a given reference kind.
def kindId (a : AssetRec) : RefKind → Option Nat
  | RefKind.dept => a.department_id
  | RefKind.loc => a.location_id
  | RefKind.req => a.user_id

-- Concrete environments for the C6 counterexample and witnesses: a server on
-- which every by-id lookup fails (404) and one on which every lookup succeeds.
def srvAllFail : Servers :=
  ⟨fun _ => ⟨404, none⟩, fun _ => ⟨404, none⟩, fun _ => ⟨404, "", ""⟩⟩

def srvAllOk : Servers :=
  ⟨fun _ => ⟨200, some "IT"⟩, fun _ => ⟨200, some "HQ"⟩, fun _ => ⟨200, "Ada", "Lovelace"⟩⟩

-- Two asset records that both reference department 5.
def assetsSameDept : List AssetRec :=
  [⟨some 1, some "A1", some "X", some 5, none, none⟩,
   ⟨some 2, some "A2", some "Y", some 5, none, none⟩]

-- ===========================================================================
-- contract_assets.py, step 2: update_ticket_with_attachment(ticket_id, file_path).
-- The CSV artifact has just been written; the function reads it back (early
-- return on a read exception), PUTs the multipart payload (early return on a
-- request exception), and deletes the file only when the response status is
-- 200 or 201. The environment says whether the read succeeds and what the PUT
-- does; os.remove on the just-written artifact is modelled as succeeding.
-- ===========================================================================

inductive PutOutcome
  | ok (status : Nat)
  | exn
deriving DecidableEq

structure AttachEnv where
  readOk : Bool
  put : PutOutcome
deriving DecidableEq

structure AttachResult where
  putDone : Option PutOutcome
  fileDeleted : Bool
  errors : Nat
deriving DecidableEq

def update_ticket_with_attachment (env : AttachEnv) : AttachResult :=
  if env.readOk = false then ⟨none, false, 1⟩
  else
    match env.put with
    | PutOutcome.exn => ⟨some PutOutcome.exn, false, 1⟩
    | PutOutcome.ok s =>
      if s = 200 ∨ s = 201 then ⟨some (PutOutcome.ok s), true, 0⟩
      else ⟨some (PutOutcome.ok s), false, 1⟩

-- ===========================================================================
-- term_ticket_assets_note.py: update_ticket_with_assets builds the PUT body
--   payload = { 'assets': [ {'display_id': asset['asset_tag']} for asset in assets ] }
-- from the supplied entries alone (the ticket's current asset list is never
-- read). We model the payload construction; the PUT itself is transport.
-- ===========================================================================

-- One entry of assets_list as assembled in main of term_ticket_assets_note.py.
structure NoteAsset where
  name : Option String
  asset_type_name : Option String
  asset_tag : Option String
deriving DecidableEq

structure AssetStub where
  display_id : Option String
deriving DecidableEq

def update_ticket_with_assets_payload (assets : List NoteAsset) : List AssetStub :=
  assets.map (fun a => ⟨a.asset_tag⟩)

-- ===========================================================================
-- freshservice_hrms_termination.py: fetch_manager_email(manager_id).
-- GET /requesters/manager_id; on 200 return requester.primary_email; on 404
-- GET /agents/manager_id and on 200 return agent.email, else
-- raise_for_status(); on any other first status raise_for_status() (which
-- raises only for 4xx/5xx, otherwise the function falls through returning
-- None). The environment fixes both responses for this manager id.
-- ===========================================================================

structure MgrEnv where
  requesterStatus : Nat
  requesterEmail : String
  agentStatus : Nat
  agentEmail : String
deriving DecidableEq

inductive MgrStep
  | getRequester (id : Nat)
  | getAgent (id : Nat)
deriving DecidableEq

inductive MgrOut
  | email (e : String)
  | raised (status : Nat)
  | noneReturned
deriving DecidableEq

def fetch_manager_email (env : MgrEnv) (manager_id : Nat) : MgrOut × List MgrStep :=
  if env.requesterStatus = 200 then
    (MgrOut.email env.requesterEmail, [MgrStep.getRequester manager_id])
  else if env.requesterStatus = 404 then
    if env.agentStatus = 200 then
      (MgrOut.email env.agentEmail,
        [MgrStep.getRequester manager_id, MgrStep.getAgent manager_id])
    else if 400 ≤ env.agentStatus ∧ env.agentStatus < 600 then
      (MgrOut.raised env.agentStatus,
        [MgrStep.getRequester manager_id, MgrStep.getAgent manager_id])
    else
      (MgrOut.noneReturned,
        [MgrStep.getRequester manager_id, MgrStep.getAgent manager_id])
  else if 400 ≤ env.requesterStatus ∧ env.requesterStatus < 600 then
    (MgrOut.raised env.requesterStatus, [MgrStep.getRequester manager_id])
  else
    (MgrOut.noneReturned, [MgrStep.getRequester manager_id])

-- ===========================================================================
-- freshservice_hrms_termination.py: fetch_requester_info(email).
-- Search the Requesters namespace; an HTTPError (4xx/5xx via
-- raise_for_status) is caught and printed; on success with a non-empty
-- "requesters" array the first record's id, reporting_manager_id and user
-- type 'requester' are returned and the Agents namespace is never queried.
-- Otherwise the Agents namespace is searched the same way; if both fail,
-- ValueError is raised. The environment fixes both search responses for the
-- (lowercased) email being queried.
-- ===========================================================================

structure PersonRec where
  id : Nat
  reporting_manager_id : Option Nat
deriving DecidableEq

structure SearchResp where
  status : Nat
  results : List PersonRec
deriving DecidableEq

structure SearchEnv where
  requesterSearch : SearchResp
  agentSearch : SearchResp
deriving DecidableEq

inductive SearchStep
  | searchRequesters
  | searchAgents
deriving DecidableEq

inductive RequesterInfoOut
  | found (id : Nat) (manager_id : Option Nat) (user_type : String)
  | notFoundError
deriving DecidableEq

def requesterInfoAgentsPhase (env : SearchEnv) : RequesterInfoOut × List SearchStep :=
  if 400 ≤ env.agentSearch.status ∧ env.agentSearch.status < 600 then
    (RequesterInfoOut.notFoundError, [SearchStep.searchRequesters, SearchStep.searchAgents])
  else
    match env.agentSearch.results with
    | a :: _ =>
      (RequesterInfoOut.found a.id a.reporting_manager_id "agent",
        [SearchStep.searchRequesters, SearchStep.searchAgents])
    | [] =>
      (RequesterInfoOut.notFoundError, [SearchStep.searchRequesters, SearchStep.searchAgents])

def fetch_requester_info (env : SearchEnv) : RequesterInfoOut × List SearchStep :=
  if 400 ≤ env.requesterSearch.status ∧ env.requesterSearch.status < 600 then
    requesterInfoAgentsPhase env
  else
    match env.requesterSearch.results with
    | r :: _ =>
      (RequesterInfoOut.found r.id r.reporting_manager_id "requester",
        [SearchStep.searchRequesters])
    | [] => requesterInfoAgentsPhase env

-- ===========================================================================
-- freshservice_hrms_termination.py: extract_employee_id and main.
-- extract_employee_id(description_text) = re.search(r"Employee ID:\s*(\d+)", ...)
-- scanning left to right; the match group is the maximal digit run after the
-- literal "Employee ID:" and optional whitespace.
-- ===========================================================================

-- Consume a literal pattern from the front of a character list.
def stripLead : List Char → List Char → Option (List Char)
  | [], rest => some rest
  | _ :: _, [] => none
  | p :: ps, c :: cs => if p = c then stripLead ps cs else none

-- Attempt the regex "Employee ID:\s*(\d+)" anchored at the current position.
def empIdHere (s : List Char) : Option (List Char) :=
  (stripLead "Employee ID:".data s).bind (fun r =>
    let ds := (r.dropWhile isSpaceChar).takeWhile isDigitChar
    if ds = [] then none else some ds)

-- re.search: try every position left to right.
def empIdSearch : List Char → Option (List Char)
  | [] => none
  | c :: rest =>
    match empIdHere (c :: rest) with
    | some ds => some ds
    | none => empIdSearch rest

-- extract_employee_id: the match group, or None for the ValueError path.
def extract_employee_id (desc : List Char) : Option (List Char) :=
  empIdSearch desc

-- The description contains an "Employee ID: <number>" occurrence: some
-- position is followed by the literal, optional whitespace, and a digit.
def containsEmployeeId (desc : List Char) : Prop :=
  ∃ pre ws d ds rest,
    desc = pre ++ ("Employee ID:".data ++ (ws ++ (d :: (ds ++ rest)))) ∧
    (∀ c ∈ ws, isSpaceChar c = true) ∧ isDigitChar d = true

-- Names bound at module level in freshservice_hrms_termination.py. The HRMS
-- login step of main invokes the name "login_HRMS", which is not among them
-- (the function is defined as login_hrms), so that call raises NameError.
def moduleGlobals : List String :=
  ["argparse", "requests", "re", "base64", "json", "time", "xmltodict",
   "datetime", "credentials",
   "get_headers", "fetch_ticket_data", "extract_employee_id",
   "convert_date_format", "login_hrms", "fetch_employee_data",
   "process_employee_data", "fetch_requester_info", "fetch_manager_email",
   "create_service_request", "main"]

inductive MainStep
  | fetchTicket (id : Nat)
  | printEmployeeId
  | printExtractError
  | printNameError
  | hrmsLogin
  | hrmsReport
  | requesterSearchCall
  | agentSearchCall
  | managerLookupCall
  | catalogWriteCall
deriving DecidableEq

inductive MainOutcome
  | returned
  | uncaught
deriving DecidableEq

structure TermEnv where
  ticket_id : Nat
  ticketStatus : Nat
  description_text : List Char
deriving DecidableEq

def mainTermination (env : TermEnv) : List MainStep × MainOutcome :=
  if 400 ≤ env.ticketStatus ∧ env.ticketStatus < 600 then
    ([MainStep.fetchTicket env.ticket_id], MainOutcome.uncaught)
  else
    match extract_employee_id env.description_text with
    | none =>
      ([MainStep.fetchTicket env.ticket_id, MainStep.printExtractError],
        MainOutcome.returned)
    | some _ =>
      -- token = login_HRMS(): Python resolves the global name at call time.
      -- The then-branch is dead: no module-level binding for "login_HRMS"
      -- exists, so there is no code it could run. The else-branch is the
      -- NameError, caught by the outer "except Exception" handler, which
      -- prints it; main then returns normally.
      if "login_HRMS" ∈ moduleGlobals then
        ([], MainOutcome.uncaught)
      else
        ([MainStep.fetchTicket env.ticket_id, MainStep.printEmployeeId,
          MainStep.printNameError], MainOutcome.returned)

-- Concrete environment for the C1 witness.
def envC1 : TermEnv := ⟨54157, 200, "Hello. Employee ID: 12345 thanks".data⟩

-- ===========================================================================
-- freshservice_hrms_termination.py: convert_date_format(date_str) =
--   datetime.strptime(date_str.strip(), "%m/%d/%Y").strftime("%Y-%m-%d"),
-- re-raising ValueError after printing. CPython _strptime compiles the
-- format to the anchored regex  (1[0-2]|0[1-9]|[1-9]) / (3[01]|[12]\d|0[1-9]|[1-9]) / \d\d\d\d
-- with leftmost-alternative backtracking, requires the whole string to be
-- consumed, and then datetime() validates the day against the month length
-- and the year against MINYEAR = 1. strftime("%Y-%m-%d") zero-pads month and
-- day to 2 digits and the year to 4 digits (the documented rendering; on
-- some platforms years below 1000 print unpadded, so the general theorem
-- below is stated for 4-digit years from 1000).
-- ===========================================================================

def firstSome {α β : Type} : List α → (α → Option β) → Option β
  | [], _ => none
  | x :: xs, f => (f x).elim (firstSome xs f) some

-- Alternatives of the %m regex 1[0-2]|0[1-9]|[1-9], in regex order, each with
-- the matched value and the remaining input.
def monthAlts : List Char → List (Nat × List Char)
  | [] => []
  | [c] => if isDigitChar c = true ∧ c ≠ '0' then [(digitVal c, [])] else []
  | c1 :: c2 :: rest =>
    (if c1 = '1' ∧ (c2 = '0' ∨ c2 = '1' ∨ c2 = '2')
      then [(10 + digitVal c2, rest)] else []) ++
    (if c1 = '0' ∧ isDigitChar c2 = true ∧ c2 ≠ '0'
      then [(digitVal c2, rest)] else []) ++
    (if isDigitChar c1 = true ∧ c1 ≠ '0'
      then [(digitVal c1, c2 :: rest)] else [])

-- Alternatives of the %d regex 3[01]|[12]\d|0[1-9]|[1-9], in regex order.
def dayAlts : List Char → List (Nat × List Char)
  | [] => []
  | [c] => if isDigitChar c = true ∧ c ≠ '0' then [(digitVal c, [])] else []
  | c1 :: c2 :: rest =>
    (if c1 = '3' ∧ (c2 = '0' ∨ c2 = '1')
      then [(30 + digitVal c2, rest)] else []) ++
    (if (c1 = '1' ∨ c1 = '2') ∧ isDigitChar c2 = true
      then [(10 * digitVal c1 + digitVal c2, rest)] else []) ++
    (if c1 = '0' ∧ isDigitChar c2 = true ∧ c2 ≠ '0'
      then [(digitVal c2, rest)] else []) ++
    (if isDigitChar c1 = true ∧ c1 ≠ '0'
      then [(digitVal c1, c2 :: rest)] else [])

-- The %Y regex \d\d\d\d: exactly four digits.
def yearParse : List Char → Option (Nat × List Char)
  | a :: b :: c :: d :: rest =>
    if isDigitChar a = true ∧ isDigitChar b = true ∧
        isDigitChar c = true ∧ isDigitChar d = true then
      some (((digitVal a * 10 + digitVal b) * 10 + digitVal c) * 10 + digitVal d, rest)
    else none
  | _ => none

-- strptime(t, "%m/%d/%Y") up to the date() constructor: leftmost-alternative
-- backtracking over the month and day alternations, literal slashes, a
-- four-digit year, and full consumption of the input.
def strptimeMDY (s : List Char) : Option (Nat × Nat × Nat) :=
  firstSome (monthAlts s) (fun mr =>
    match mr.2 with
    | c :: r2 =>
      if c = '/' then
        firstSome (dayAlts r2) (fun dr =>
          match dr.2 with
          | c2 :: r4 =>
            if c2 = '/' then
              match yearParse r4 with
              | some (yv, []) => some (mr.1, dr.1, yv)
              | _ => none
            else none
          | [] => none)
      else none
    | [] => none)

def isLeapYear (y : Nat) : Bool :=
  (y % 4 = 0 && !(y % 100 = 0)) || y % 400 = 0

def daysInMonth (y m : Nat) : Nat :=
  if m = 2 then (if isLeapYear y = true then 29 else 28)
  else if m = 4 ∨ m = 6 ∨ m = 9 ∨ m = 11 then 30 else 31

def pad2 (n : Nat) : List Char := [digitChar (n / 10 % 10), digitChar (n % 10)]

def pad4 (n : Nat) : List Char :=
  [digitChar (n / 1000 % 10), digitChar (n / 100 % 10),
   digitChar (n / 10 % 10), digitChar (n % 10)]

-- strftime("%Y-%m-%d") on the parsed date.
def isoFormat (y m d : Nat) : List Char := pad4 y ++ '-' :: (pad2 m ++ '-' :: pad2 d)

-- convert_date_format: strip, parse, validate the day against the month
-- length and the year against MINYEAR, then format; a failed parse or an
-- invalid date is the ValueError path (printed and re-raised).
def convert_date_format (s : String) : Except String String :=
  match strptimeMDY (pyStripL s.data) with
  | none => Except.error "time data does not match format"
  | some (m, d, y) =>
    if 1 ≤ y ∧ 1 ≤ d ∧ d ≤ daysInMonth y m then
      Except.ok (String.mk (isoFormat y m d))
    else Except.error "day is out of range for month"

-- The canonical zero-padded MM/DD/YYYY rendering of a date.
def mdyChars (m d y : Nat) : List Char := pad2 m ++ '/' :: (pad2 d ++ '/' :: pad4 y)

def mdyString (m d y : Nat) : String := String.mk (mdyChars m d y)

-- Declarative description of the tokens the %m, %d and %Y regexes accept,
-- independent of the parsing functions; used to state what the pattern is.
def monthTok (m : Nat) (ms : List Char) : Prop :=
  (∃ c, ms = ['1', c] ∧ (c = '0' ∨ c = '1' ∨ c = '2') ∧ m = 10 + digitVal c) ∨
  (∃ c, ms = ['0', c] ∧ isDigitChar c = true ∧ c ≠ '0' ∧ m = digitVal c) ∨
  (∃ c, ms = [c] ∧ isDigitChar c = true ∧ c ≠ '0' ∧ m = digitVal c)

def dayTok (d : Nat) (ds : List Char) : Prop :=
  (∃ c, ds = ['3', c] ∧ (c = '0' ∨ c = '1') ∧ d = 30 + digitVal c) ∨
  (∃ c1 c2, ds = [c1, c2] ∧ (c1 = '1' ∨ c1 = '2') ∧ isDigitChar c2 = true ∧
    d = 10 * digitVal c1 + digitVal c2) ∨
  (∃ c, ds = ['0', c] ∧ isDigitChar c = true ∧ c ≠ '0' ∧ d = digitVal c) ∨
  (∃ c, ds = [c] ∧ isDigitChar c = true ∧ c ≠ '0' ∧ d = digitVal c)

def yearTok (y : Nat) (ys : List Char) : Prop :=
  ∃ a b c d, ys = [a, b, c, d] ∧ isDigitChar a = true ∧ isDigitChar b = true ∧
    isDigitChar c = true ∧ isDigitChar d = true ∧
    y = ((digitVal a * 10 + digitVal b) * 10 + digitVal c) * 10 + digitVal d

-- A character list of the shape month-token / day-token / year-token.
def acceptedMDY (t : List Char) (m d y : Nat) : Prop :=
  ∃ ms ds ys, monthTok m ms ∧ dayTok d ds ∧ yearTok y ys ∧
    t = ms ++ '/' :: (ds ++ '/' :: ys)

-- The date checks performed by strptime's regex plus the date() constructor.
def validMDY (m d y : Nat) : Prop :=
  1 ≤ m ∧ m ≤ 12 ∧ 1 ≤ d ∧ d ≤ daysInMonth y m ∧ 1 ≤ y ∧ y ≤ 9999

-- ===========================================================================
-- Theorems
-- ===========================================================================

-- Behaviour of the pagination loop when pages start .. start+n-1 are good
-- (status 200 and non-empty) and page start+n is the first bad page.
theorem fetchAssetsLoop_spec (srv : Nat → PageResponse) :
    ∀ (n start fuel : Nat), n < fuel →
    (∀ j, j < n → (srv (start + j)).status = 200 ∧ (srv (start + j)).associated_assets ≠ []) →
    ((srv (start + n)).status ≠ 200 ∨ (srv (start + n)).associated_assets = []) →
    fetchAssetsLoop srv fuel start =
      ⟨pagesConcat srv start n, if (srv (start + n)).status ≠ 200 then 1 else 0, n + 1, true⟩ := by
  intro n
  induction n with
  | zero =>
    intro start fuel hfuel _ hbad
    match fuel, hfuel with
    | fuel + 1, _ =>
      simp only [Nat.add_zero] at hbad
      unfold fetchAssetsLoop
      rcases hbad with h | h
      · simp [h, pagesConcat]
      · by_cases hs : (srv start).status = 200
        · simp [h, hs, pagesConcat]
        · simp [h, hs, pagesConcat]
  | succ n ih =>
    intro start fuel hfuel hgood hbad
    match fuel, hfuel with
    | fuel + 1, hfuel =>
      have h0 := hgood 0 (Nat.succ_pos n)
      simp only [Nat.add_zero] at h0
      have hrec := ih (start + 1) fuel (by omega)
        (fun j hj => by
          have := hgood (j + 1) (by omega)
          simpa [Nat.add_assoc, Nat.add_comm 1 j] using this)
        (by
          have : start + (n + 1) = start + 1 + n := by omega
          rw [this] at hbad
          exact hbad)
      unfold fetchAssetsLoop
      have hshift : start + (n + 1) = start + 1 + n := by omega
      simp only [h0.1, ne_eq, not_true_eq_false, if_false, ite_false, h0.2, hrec]
      rw [hshift]
      simp [pagesConcat, h0.1, h0.2, hrec]

/-- C2: the asset pagination loop halts at the first page whose
associated_assets array is empty or whose response status is not 200; on a
non-200 status it logs one error and terminates pagination early (the loop
body has no raise path, so no exception escapes), returning exactly the
records accumulated from the earlier pages. -/
theorem C2_pagination_halts (srv : Nat → PageResponse) (k fuel : Nat)
    (hk : 1 ≤ k) (hfuel : k ≤ fuel)
    (hgood : ∀ i, 1 ≤ i → i < k → (srv i).status = 200 ∧ (srv i).associated_assets ≠ [])
    (hbad : (srv k).status ≠ 200 ∨ (srv k).associated_assets = []) :
    fetchAllAssets srv fuel =
      ⟨pagesConcat srv 1 (k - 1), if (srv k).status ≠ 200 then 1 else 0, k, true⟩ := by
  have hk1 : 1 + (k - 1) = k := by omega
  have := fetchAssetsLoop_spec srv (k - 1) 1 fuel (by omega)
    (fun j hj => by
      have := hgood (1 + j) (by omega) (by omega)
      exact this)
    (by rw [hk1]; exact hbad)
  rw [hk1] at this
  unfold fetchAllAssets
  rw [this]
  congr 1
  omega

/-- Witness for C2: the concrete server whose page 2 answers 500 makes the
loop return the page-1 records, log one error, and stop after 2 calls. -/
theorem C2_pagination_halts_witness :
    fetchAllAssets srvSecondFails 5 = ⟨[7, 8], 1, 2, true⟩ := by
  have h := C2_pagination_halts srvSecondFails 2 5 (by omega) (by omega)
    (by
      intro i h1 h2
      have : i = 1 := by omega
      subst this
      refine ⟨rfl, by decide⟩)
    (by decide)
  rw [h]
  decide

/-- C3 counterexample: with a first page of 100 records and a second page of
40 records (per_page = 100), the loop yields the 140 combined records but
makes 3 fetch calls, not 2: the source has no "page smaller than per_page"
stop condition, so a third call is issued and returns the empty page. -/
theorem C3_counterexample :
    (fetchAllAssets srvTwoPages 10).assets.length = 140 ∧
    (fetchAllAssets srvTwoPages 10).calls = 3 ∧
    ¬ (fetchAllAssets srvTwoPages 10).calls = 2 := by
  refine ⟨?_, ?_, ?_⟩ <;> decide

/-- C3 amended: when the contract's associated-assets endpoint returns a first
page of 100 records and a second page of 40 records with per_page = 100, the
pagination loop yields 140 combined records and makes exactly 3 fetch calls;
the third call returns an empty page, which is what stops the loop. -/
theorem C3_amended_three_calls :
    (fetchAllAssets srvTwoPages 10).assets.length = 140 ∧
    (fetchAllAssets srvTwoPages 10).calls = 3 ∧
    (srvTwoPages 3).associated_assets = [] ∧
    (fetchAllAssets srvTwoPages 10).completed = true := by
  refine ⟨?_, ?_, ?_, ?_⟩ <;> decide

-- A call event of one kind never occurs in the events generated for another.
theorem count_map_mk_ne {k k2 : RefKind} (h : k ≠ k2) (d : Nat) (ids : List Nat) :
    (ids.map fun i => CallEv.mk k2 i).count ⟨k, d⟩ = 0 := by
  rw [List.count_eq_zero]
  intro hmem
  rcases List.mem_map.mp hmem with ⟨i, _, hEq⟩
  exact h (congrArg CallEv.kind hEq).symm

-- When every department lookup succeeds, a run over any asset list issues one
-- department call for id d exactly when some record references d and d is not
-- already cached, and never more than one.
theorem processAssets_count_dept (env : Servers)
    (hsrv : ∀ i, (env.dept i).status = 200) (d : Nat) (hd : d ≠ 0)
    (assets : List AssetRec) :
    ∀ st : RunState,
    (processAssets env assets st).calls.count ⟨RefKind.dept, d⟩ =
      st.calls.count ⟨RefKind.dept, d⟩ +
      (if (assets.any fun a => a.department_id == some d) && !(inCache d st.deptCache)
       then 1 else 0) := by
  induction assets with
  | nil => intro st; simp [processAssets]
  | cons a rest ih =>
    intro st
    show (processAssets env rest (processAsset env st a)).calls.count ⟨RefKind.dept, d⟩ = _
    rw [ih (processAsset env st a)]
    obtain ⟨adis, atag, anm, adep, aloc, ausr⟩ := a
    simp only [processAsset, List.any_cons]
    cases hdid : adep with
    | none =>
      simp [pyTruthy, hdid, List.count_append,
        count_map_mk_ne (show RefKind.dept ≠ RefKind.loc by decide),
        count_map_mk_ne (show RefKind.dept ≠ RefKind.req by decide)]
    | some d0 =>
      by_cases hd0 : d0 = 0
      · subst hd0
        have hne : (some 0 == some d) = false := by
          simp [beq_eq_false_iff_ne]
          omega
        simp [pyTruthy, hdid, hne, List.count_append,
          count_map_mk_ne (show RefKind.dept ≠ RefKind.loc by decide),
          count_map_mk_ne (show RefKind.dept ≠ RefKind.req by decide)]
      · have htr : pyTruthy (some d0) = true := by simp [pyTruthy, hd0]
        cases hcf : cacheFind d0 st.deptCache with
        | some v =>
          by_cases hdd : d0 = d
          · subst hdd
            have hinc : inCache d0 st.deptCache = true := by simp [inCache, hcf]
            simp [pyTruthy, hd0, hdid, get_department_name, hcf, hinc,
              List.count_append,
              count_map_mk_ne (show RefKind.dept ≠ RefKind.loc by decide),
              count_map_mk_ne (show RefKind.dept ≠ RefKind.req by decide)]
          · have hne : (some d0 == some d) = false := by
              simp [beq_eq_false_iff_ne, hdd]
            simp [pyTruthy, hd0, hdid, get_department_name, hcf, hne,
              List.count_append,
              count_map_mk_ne (show RefKind.dept ≠ RefKind.loc by decide),
              count_map_mk_ne (show RefKind.dept ≠ RefKind.req by decide)]
        | none =>
          have hs := hsrv d0
          by_cases hdd : d0 = d
          · subst hdd
            have hinc : inCache d0 st.deptCache = false := by simp [inCache, hcf]
            have hinc2 : inCache d0 ((d0, (env.dept d0).name) :: st.deptCache) = true := by
              simp [inCache, cacheFind]
            simp [pyTruthy, hd0, hdid, get_department_name, hcf, hs, hinc, hinc2,
              List.count_append, List.count_singleton,
              count_map_mk_ne (show RefKind.dept ≠ RefKind.loc by decide),
              count_map_mk_ne (show RefKind.dept ≠ RefKind.req by decide)]
          · have hne : (some d0 == some d) = false := by
              simp [beq_eq_false_iff_ne, hdd]
            have hev : (CallEv.mk RefKind.dept d0 == CallEv.mk RefKind.dept d) = false := by
              simp [beq_eq_false_iff_ne, CallEv.mk.injEq, hdd]
            have hinc2 : inCache d ((d0, (env.dept d0).name) :: st.deptCache) =
                inCache d st.deptCache := by
              simp [inCache, cacheFind, hdd]
            simp [pyTruthy, hd0, hdid, get_department_name, hcf, hs, hne, hinc2,
              List.count_append, List.count_singleton, List.count_cons, hev,
              count_map_mk_ne (show RefKind.dept ≠ RefKind.loc by decide),
              count_map_mk_ne (show RefKind.dept ≠ RefKind.req by decide)]

-- Same statement for location lookups.
theorem processAssets_count_loc (env : Servers)
    (hsrv : ∀ i, (env.loc i).status = 200) (d : Nat) (hd : d ≠ 0)
    (assets : List AssetRec) :
    ∀ st : RunState,
    (processAssets env assets st).calls.count ⟨RefKind.loc, d⟩ =
      st.calls.count ⟨RefKind.loc, d⟩ +
      (if (assets.any fun a => a.location_id == some d) && !(inCache d st.locCache)
       then 1 else 0) := by
  induction assets with
  | nil => intro st; simp [processAssets]
  | cons a rest ih =>
    intro st
    show (processAssets env rest (processAsset env st a)).calls.count ⟨RefKind.loc, d⟩ = _
    rw [ih (processAsset env st a)]
    obtain ⟨adis, atag, anm, adep, aloc, ausr⟩ := a
    simp only [processAsset, List.any_cons]
    cases hdid : aloc with
    | none =>
      simp [pyTruthy, hdid, List.count_append,
        count_map_mk_ne (show RefKind.loc ≠ RefKind.dept by decide),
        count_map_mk_ne (show RefKind.loc ≠ RefKind.req by decide)]
    | some d0 =>
      by_cases hd0 : d0 = 0
      · subst hd0
        have hne : (some 0 == some d) = false := by
          simp [beq_eq_false_iff_ne]
          omega
        simp [pyTruthy, hdid, hne, List.count_append,
          count_map_mk_ne (show RefKind.loc ≠ RefKind.dept by decide),
          count_map_mk_ne (show RefKind.loc ≠ RefKind.req by decide)]
      · have htr : pyTruthy (some d0) = true := by simp [pyTruthy, hd0]
        cases hcf : cacheFind d0 st.locCache with
        | some v =>
          by_cases hdd : d0 = d
          · subst hdd
            have hinc : inCache d0 st.locCache = true := by simp [inCache, hcf]
            simp [pyTruthy, hd0, hdid, get_location_name, hcf, hinc,
              List.count_append,
              count_map_mk_ne (show RefKind.loc ≠ RefKind.dept by decide),
              count_map_mk_ne (show RefKind.loc ≠ RefKind.req by decide)]
          · have hne : (some d0 == some d) = false := by
              simp [beq_eq_false_iff_ne, hdd]
            simp [pyTruthy, hd0, hdid, get_location_name, hcf, hne,
              List.count_append,
              count_map_mk_ne (show RefKind.loc ≠ RefKind.dept by decide),
              count_map_mk_ne (show RefKind.loc ≠ RefKind.req by decide)]
        | none =>
          have hs := hsrv d0
          by_cases hdd : d0 = d
          · subst hdd
            have hinc : inCache d0 st.locCache = false := by simp [inCache, hcf]
            have hinc2 : inCache d0 ((d0, (env.loc d0).name) :: st.locCache) = true := by
              simp [inCache, cacheFind]
            simp [pyTruthy, hd0, hdid, get_location_name, hcf, hs, hinc, hinc2,
              List.count_append, List.count_singleton,
              count_map_mk_ne (show RefKind.loc ≠ RefKind.dept by decide),
              count_map_mk_ne (show RefKind.loc ≠ RefKind.req by decide)]
          · have hne : (some d0 == some d) = false := by
              simp [beq_eq_false_iff_ne, hdd]
            have hev : (CallEv.mk RefKind.loc d0 == CallEv.mk RefKind.loc d) = false := by
              simp [beq_eq_false_iff_ne, CallEv.mk.injEq, hdd]
            have hinc2 : inCache d ((d0, (env.loc d0).name) :: st.locCache) =
                inCache d st.locCache := by
              simp [inCache, cacheFind, hdd]
            simp [pyTruthy, hd0, hdid, get_location_name, hcf, hs, hne, hinc2,
              List.count_append, List.count_singleton, List.count_cons, hev,
              count_map_mk_ne (show RefKind.loc ≠ RefKind.dept by decide),
              count_map_mk_ne (show RefKind.loc ≠ RefKind.req by decide)]

-- Same statement for requester lookups.
theorem processAssets_count_req (env : Servers)
    (hsrv : ∀ i, (env.req i).status = 200) (d : Nat) (hd : d ≠ 0)
    (assets : List AssetRec) :
    ∀ st : RunState,
    (processAssets env assets st).calls.count ⟨RefKind.req, d⟩ =
      st.calls.count ⟨RefKind.req, d⟩ +
      (if (assets.any fun a => a.user_id == some d) && !(inCache d st.reqCache)
       then 1 else 0) := by
  induction assets with
  | nil => intro st; simp [processAssets]
  | cons a rest ih =>
    intro st
    show (processAssets env rest (processAsset env st a)).calls.count ⟨RefKind.req, d⟩ = _
    rw [ih (processAsset env st a)]
    obtain ⟨adis, atag, anm, adep, aloc, ausr⟩ := a
    simp only [processAsset, List.any_cons]
    cases hdid : ausr with
    | none =>
      simp [pyTruthy, hdid, List.count_append,
        count_map_mk_ne (show RefKind.req ≠ RefKind.dept by decide),
        count_map_mk_ne (show RefKind.req ≠ RefKind.loc by decide)]
    | some d0 =>
      by_cases hd0 : d0 = 0
      · subst hd0
        have hne : (some 0 == some d) = false := by
          simp [beq_eq_false_iff_ne]
          omega
        simp [pyTruthy, hdid, hne, List.count_append,
          count_map_mk_ne (show RefKind.req ≠ RefKind.dept by decide),
          count_map_mk_ne (show RefKind.req ≠ RefKind.loc by decide)]
      · have htr : pyTruthy (some d0) = true := by simp [pyTruthy, hd0]
        cases hcf : cacheFind d0 st.reqCache with
        | some v =>
          by_cases hdd : d0 = d
          · subst hdd
            have hinc : inCache d0 st.reqCache = true := by simp [inCache, hcf]
            simp [pyTruthy, hd0, hdid, get_requester_name, hcf, hinc,
              List.count_append,
              count_map_mk_ne (show RefKind.req ≠ RefKind.dept by decide),
              count_map_mk_ne (show RefKind.req ≠ RefKind.loc by decide)]
          · have hne : (some d0 == some d) = false := by
              simp [beq_eq_false_iff_ne, hdd]
            simp [pyTruthy, hd0, hdid, get_requester_name, hcf, hne,
              List.count_append,
              count_map_mk_ne (show RefKind.req ≠ RefKind.dept by decide),
              count_map_mk_ne (show RefKind.req ≠ RefKind.loc by decide)]
        | none =>
          have hs := hsrv d0
          by_cases hdd : d0 = d
          · subst hdd
            have hinc : inCache d0 st.reqCache = false := by simp [inCache, hcf]
            simp [pyTruthy, hd0, hdid, get_requester_name, hcf, hs, hinc,
              inCache, cacheFind,
              List.count_append, List.count_singleton,
              count_map_mk_ne (show RefKind.req ≠ RefKind.dept by decide),
              count_map_mk_ne (show RefKind.req ≠ RefKind.loc by decide)]
          · have hne : (some d0 == some d) = false := by
              simp [beq_eq_false_iff_ne, hdd]
            have hev : (CallEv.mk RefKind.req d0 == CallEv.mk RefKind.req d) = false := by
              simp [beq_eq_false_iff_ne, CallEv.mk.injEq, hdd]
            have hinc2 : ∀ nm, inCache d ((d0, nm) :: st.reqCache) =
                inCache d st.reqCache := by
              intro nm
              simp [inCache, cacheFind, hdd]
            simp [pyTruthy, hd0, hdid, get_requester_name, hcf, hs, hne, hinc2,
              List.count_append, List.count_singleton, List.count_cons, hev,
              count_map_mk_ne (show RefKind.req ≠ RefKind.dept by decide),
              count_map_mk_ne (show RefKind.req ≠ RefKind.loc by decide)]

/-- C6 counterexample: with a department server answering 404, two asset
records that both reference department 5 cause two department API calls in
one run (the failed first lookup is not cached), refuting "exactly one
resolution API call per unique id per run". -/
theorem C6_counterexample :
    (processAssets srvAllFail assetsSameDept initialState).calls.count ⟨RefKind.dept, 5⟩ = 2 ∧
    ¬ (processAssets srvAllFail assetsSameDept initialState).calls.count ⟨RefKind.dept, 5⟩ = 1 := by
  refine ⟨?_, ?_⟩ <;> decide

/-- C6 amended: when every by-id resolution call succeeds (status 200), then
for every run and every nonzero foreign-key id of any kind (department,
location, or requester), exactly one resolution API call is made per unique
id per run when some record references it and none otherwise, no matter how
many asset records reference that id; repeat lookups are served from the
cache without a call. -/
theorem C6_amended_unique_calls (env : Servers)
    (h1 : ∀ i, (env.dept i).status = 200)
    (h2 : ∀ i, (env.loc i).status = 200)
    (h3 : ∀ i, (env.req i).status = 200)
    (assets : List AssetRec) (k : RefKind) (d : Nat) (hd : d ≠ 0) :
    (processAssets env assets initialState).calls.count ⟨k, d⟩ =
      if assets.any fun a => kindId a k == some d then 1 else 0 := by
  cases k with
  | dept =>
    rw [processAssets_count_dept env h1 d hd assets initialState]
    simp [initialState, inCache, cacheFind, kindId]
  | loc =>
    rw [processAssets_count_loc env h2 d hd assets initialState]
    simp [initialState, inCache, cacheFind, kindId]
  | req =>
    rw [processAssets_count_req env h3 d hd assets initialState]
    simp [initialState, inCache, cacheFind, kindId]

/-- Witness for the amended C6: on an all-success server, the two records
referencing department 5 trigger exactly one department call. -/
theorem C6_amended_unique_calls_witness :
    (processAssets srvAllOk assetsSameDept initialState).calls.count ⟨RefKind.dept, 5⟩ = 1 := by
  have h := C6_amended_unique_calls srvAllOk (fun _ => rfl) (fun _ => rfl) (fun _ => rfl)
    assetsSameDept RefKind.dept 5 (by omega)
  rw [h]
  decide

/-- C7: when a by-id resolution call returns a non-success status, each
resolver logs one error and returns null without raising, and leaves the
cache unchanged, so a later resolve of the same id issues the API call
again. -/
theorem C7_failed_lookup_not_cached (env : Servers) (d : Nat) (cd cl cr : Cache)
    (hd : d ≠ 0)
    (h1 : (env.dept d).status ≠ 200)
    (h2 : (env.loc d).status ≠ 200)
    (h3 : (env.req d).status ≠ 200)
    (m1 : cacheFind d cd = none)
    (m2 : cacheFind d cl = none)
    (m3 : cacheFind d cr = none) :
    get_department_name env.dept (some d) cd = ⟨none, cd, [d], 1⟩ ∧
    get_location_name env.loc (some d) cl = ⟨none, cl, [d], 1⟩ ∧
    get_requester_name env.req (some d) cr = ⟨none, cr, [d], 1⟩ ∧
    (get_department_name env.dept (some d)
      (get_department_name env.dept (some d) cd).cache).called = [d] ∧
    (get_location_name env.loc (some d)
      (get_location_name env.loc (some d) cl).cache).called = [d] ∧
    (get_requester_name env.req (some d)
      (get_requester_name env.req (some d) cr).cache).called = [d] := by
  have e1 : get_department_name env.dept (some d) cd = ⟨none, cd, [d], 1⟩ := by
    simp [get_department_name, hd, m1, h1]
  have e2 : get_location_name env.loc (some d) cl = ⟨none, cl, [d], 1⟩ := by
    simp [get_location_name, hd, m2, h2]
  have e3 : get_requester_name env.req (some d) cr = ⟨none, cr, [d], 1⟩ := by
    simp [get_requester_name, hd, m3, h3]
  refine ⟨e1, e2, e3, ?_, ?_, ?_⟩
  · rw [e1, e1]
  · rw [e2, e2]
  · rw [e3, e3]

/-- Witness for C7 at department id 5 on the all-404 server with empty caches. -/
theorem C7_failed_lookup_not_cached_witness :
    get_department_name srvAllFail.dept (some 5) [] = ⟨none, [], [5], 1⟩ ∧
    get_requester_name srvAllFail.req (some 5) [] = ⟨none, [], [5], 1⟩ := by
  have h := C7_failed_lookup_not_cached srvAllFail 5 [] [] [] (by omega)
    (by decide) (by decide) (by decide) rfl rfl rfl
  exact ⟨h.1, h.2.2.1⟩

/-- C4: after the CSV artifact has been assembled, it is deleted if and only
if the ticket attachment PUT was performed and returned HTTP status 200 or
201; on any other status, or on an exception raised during the request (or
while reading the file back), the local file persists. -/
theorem C4_delete_iff_success (env : AttachEnv) :
    ((update_ticket_with_attachment env).fileDeleted = true ↔
      (∃ s, (update_ticket_with_attachment env).putDone = some (PutOutcome.ok s) ∧
        (s = 200 ∨ s = 201))) ∧
    ((update_ticket_with_attachment env).putDone = some PutOutcome.exn →
      (update_ticket_with_attachment env).fileDeleted = false) := by
  obtain ⟨r, p⟩ := env
  cases r with
  | false => simp [update_ticket_with_attachment]
  | true =>
    cases p with
    | exn => simp [update_ticket_with_attachment]
    | ok s =>
      by_cases hs : s = 200 ∨ s = 201
      · constructor
        · simp [update_ticket_with_attachment, hs]
        · simp [update_ticket_with_attachment, hs]
      · constructor
        · simp only [update_ticket_with_attachment, if_neg hs]
          constructor
          · intro h
            simp at h
          · rintro ⟨s2, hsome, hs2⟩
            simp at hsome
            subst hsome
            exact absurd hs2 hs
        · simp [update_ticket_with_attachment, hs]

/-- Witness for C4: a PUT that raises an exception leaves the file on disk,
and a 201 response deletes it. -/
theorem C4_delete_iff_success_witness :
    (update_ticket_with_attachment ⟨true, PutOutcome.exn⟩).fileDeleted = false ∧
    (update_ticket_with_attachment ⟨true, PutOutcome.ok 201⟩).fileDeleted = true := by
  constructor
  · exact (C4_delete_iff_success ⟨true, PutOutcome.exn⟩).2 rfl
  · exact ((C4_delete_iff_success ⟨true, PutOutcome.ok 201⟩).1).mpr ⟨201, rfl, Or.inr rfl⟩

/-- C5: update_ticket_with_assets builds the PUT payload's assets field
solely from the supplied entries, converted into a list of display_id stubs,
so for a ticket currently holding asset stubs A and B and a supplied entry
set containing only C, the resulting payload contains only C's stub — a full
replace of the ticket's asset-relationship list, not an append. -/
theorem C5_full_replace (sA sB : AssetStub) (tC : NoteAsset)
    (hA : sA ≠ ⟨tC.asset_tag⟩) (hB : sB ≠ ⟨tC.asset_tag⟩) :
    update_ticket_with_assets_payload [tC] = [⟨tC.asset_tag⟩] ∧
    sA ∉ update_ticket_with_assets_payload [tC] ∧
    sB ∉ update_ticket_with_assets_payload [tC] ∧
    (∀ entries : List NoteAsset,
      update_ticket_with_assets_payload entries = entries.map (fun a => ⟨a.asset_tag⟩)) := by
  refine ⟨rfl, ?_, ?_, fun _ => rfl⟩
  · simp [update_ticket_with_assets_payload, hA]
  · simp [update_ticket_with_assets_payload, hB]

/-- Witness for C5 at concrete stubs A, B and entry C. -/
theorem C5_full_replace_witness :
    update_ticket_with_assets_payload [⟨some "laptop", some "Hardware", some "C-TAG"⟩] =
      [⟨some "C-TAG"⟩] ∧
    (⟨some "A-TAG"⟩ : AssetStub) ∉
      update_ticket_with_assets_payload [⟨some "laptop", some "Hardware", some "C-TAG"⟩] := by
  have h := C5_full_replace ⟨some "A-TAG"⟩ ⟨some "B-TAG"⟩
    ⟨some "laptop", some "Hardware", some "C-TAG"⟩ (by decide) (by decide)
  exact ⟨h.1, h.2.1⟩

/-- C8: fetch_manager_email queries the requester-by-id endpoint first; only
on a 404 not-found response does it fall back to the agent-by-id endpoint,
and when the agent lookup succeeds with status 200 the resolved email is
taken from the agent record's email field. -/
theorem C8_manager_fallback (env : MgrEnv) (mid : Nat) :
    ((fetch_manager_email env mid).2.head? = some (MgrStep.getRequester mid)) ∧
    ((MgrStep.getAgent mid ∈ (fetch_manager_email env mid).2) ↔ env.requesterStatus = 404) ∧
    (env.requesterStatus = 404 → env.agentStatus = 200 →
      fetch_manager_email env mid =
        (MgrOut.email env.agentEmail,
          [MgrStep.getRequester mid, MgrStep.getAgent mid])) := by
  by_cases h200 : env.requesterStatus = 200
  · refine ⟨?_, ?_, ?_⟩
    · simp [fetch_manager_email, h200]
    · simp [fetch_manager_email, h200, h200 ▸ (by omega : (200 : Nat) ≠ 404)]
    · intro h404
      rw [h200] at h404
      omega
  · by_cases h404 : env.requesterStatus = 404
    · by_cases hag : env.agentStatus = 200
      · refine ⟨?_, ?_, ?_⟩
        · simp [fetch_manager_email, h200, h404, hag]
        · simp [fetch_manager_email, h200, h404, hag]
        · intro _ _
          simp [fetch_manager_email, h200, h404, hag]
      · by_cases hagr : 400 ≤ env.agentStatus ∧ env.agentStatus < 600
        · refine ⟨?_, ?_, ?_⟩
          · simp [fetch_manager_email, h200, h404, hag, hagr]
          · simp [fetch_manager_email, h200, h404, hag, hagr]
          · intro _ h
            exact absurd h hag
        · refine ⟨?_, ?_, ?_⟩
          · simp [fetch_manager_email, h200, h404, hag, hagr]
          · simp [fetch_manager_email, h200, h404, hag, hagr]
          · intro _ h
            exact absurd h hag
    · by_cases hrr : 400 ≤ env.requesterStatus ∧ env.requesterStatus < 600
      · refine ⟨?_, ?_, ?_⟩
        · simp [fetch_manager_email, h200, h404, hrr]
        · simp [fetch_manager_email, h200, h404, hrr]
        · intro h
          exact absurd h h404
      · refine ⟨?_, ?_, ?_⟩
        · simp [fetch_manager_email, h200, h404, hrr]
        · simp [fetch_manager_email, h200, h404, hrr]
        · intro h
          exact absurd h h404

/-- Witness for C8: requester lookup 404 then agent lookup 200 resolves to
the agent record's email, after querying the requester endpoint first. -/
theorem C8_manager_fallback_witness :
    fetch_manager_email ⟨404, "r@x.com", 200, "a@x.com"⟩ 9 =
      (MgrOut.email "a@x.com", [MgrStep.getRequester 9, MgrStep.getAgent 9]) := by
  exact (C8_manager_fallback ⟨404, "r@x.com", 200, "a@x.com"⟩ 9).2.2 rfl rfl

/-- C9: whenever the email search in the Requesters namespace succeeds (no
HTTP error) and returns a non-empty requesters list, fetch_requester_info
returns the first requester's id, reporting_manager_id and the user type
'requester', and the Agents namespace is never queried in that run. -/
theorem C9_requester_found_no_agent_query (env : SearchEnv) (r : PersonRec)
    (rest : List PersonRec)
    (hs : ¬ (400 ≤ env.requesterSearch.status ∧ env.requesterSearch.status < 600))
    (hr : env.requesterSearch.results = r :: rest) :
    fetch_requester_info env =
      (RequesterInfoOut.found r.id r.reporting_manager_id "requester",
        [SearchStep.searchRequesters]) ∧
    SearchStep.searchAgents ∉ (fetch_requester_info env).2 := by
  have h : fetch_requester_info env =
      (RequesterInfoOut.found r.id r.reporting_manager_id "requester",
        [SearchStep.searchRequesters]) := by
    unfold fetch_requester_info
    rw [if_neg hs, hr]
  refine ⟨h, ?_⟩
  rw [h]
  simp

/-- Witness for C9: a 200 requester search with one hit returns that
requester and never touches the Agents namespace. -/
theorem C9_requester_found_no_agent_query_witness :
    fetch_requester_info ⟨⟨200, [⟨42, some 7⟩]⟩, ⟨200, []⟩⟩ =
      (RequesterInfoOut.found 42 (some 7) "requester", [SearchStep.searchRequesters]) := by
  exact (C9_requester_found_no_agent_query ⟨⟨200, [⟨42, some 7⟩]⟩, ⟨200, []⟩⟩
    ⟨42, some 7⟩ [] (by decide) rfl).1

-- Consuming a literal that sits at the front of the input succeeds.
theorem stripLead_append (pat rest : List Char) : stripLead pat (pat ++ rest) = some rest := by
  induction pat with
  | nil => rfl
  | cons p ps ih => simp [stripLead, ih]

theorem isDigit_not_space {c : Char} (h : isDigitChar c = true) : isSpaceChar c = false := by
  simp only [isDigitChar, Bool.or_eq_true, decide_eq_true_eq] at h
  rcases h with ((((((((h | h) | h) | h) | h) | h) | h) | h) | h) | h <;> (subst h; decide)

theorem dropWhile_spaces_append (ws : List Char) (hws : ∀ c ∈ ws, isSpaceChar c = true)
    (d : Char) (hd : isSpaceChar d = false) (rest : List Char) :
    (ws ++ d :: rest).dropWhile isSpaceChar = d :: rest := by
  induction ws with
  | nil => simp [List.dropWhile_cons, hd]
  | cons w wtl ih =>
    have hw := hws w (by simp)
    simp only [List.cons_append, List.dropWhile_cons, hw, if_true]
    exact ih (fun c hc => hws c (by simp [hc]))

-- The anchored match succeeds right after the "Employee ID:" literal.
theorem empIdHere_found (ws : List Char) (hws : ∀ c ∈ ws, isSpaceChar c = true)
    (d : Char) (hd : isDigitChar d = true) (ds rest : List Char) :
    ∃ v, empIdHere ("Employee ID:".data ++ (ws ++ (d :: (ds ++ rest)))) = some v := by
  refine ⟨d :: (ds ++ rest).takeWhile isDigitChar, ?_⟩
  unfold empIdHere
  rw [stripLead_append, Option.some_bind]
  simp only [dropWhile_spaces_append ws hws d (isDigit_not_space hd)]
  simp [List.takeWhile_cons, hd]

theorem empIdSearch_cons (c : Char) (rest : List Char) :
    empIdSearch (c :: rest) = match empIdHere (c :: rest) with
      | some ds => some ds
      | none => empIdSearch rest := rfl

-- re.search scans left to right, so a match anywhere makes the search succeed.
theorem empIdSearch_found (pre : List Char) {tail : List Char}
    (h : ∃ v, empIdHere tail = some v) :
    ∃ v, empIdSearch (pre ++ tail) = some v := by
  induction pre with
  | nil =>
    obtain ⟨v, hv⟩ := h
    cases tail with
    | nil =>
      rw [show empIdHere [] = none from rfl] at hv
      exact absurd hv (by simp)
    | cons c cs => exact ⟨v, by simp only [List.nil_append, empIdSearch, hv]⟩
  | cons c cs ih =>
    obtain ⟨v2, ihv⟩ := ih
    rw [List.cons_append, empIdSearch_cons]
    cases hh : empIdHere (c :: (cs ++ tail)) with
    | some w => exact ⟨w, rfl⟩
    | none => exact ⟨v2, ihv⟩

/-- C1: for every successfully fetched ticket whose description contains an
"Employee ID: <number>" string, main never reaches the HRMS lookup or
service-request creation: the HRMS-login step invokes the undefined name
login_HRMS (the function is defined as login_hrms), so a NameError is
raised, caught by the outer generic exception handler and printed, and main
returns without making any HRMS call, person lookup, or service-catalog
write. -/
theorem C1_login_name_error (env : TermEnv)
    (hfetch : ¬ (400 ≤ env.ticketStatus ∧ env.ticketStatus < 600))
    (hid : containsEmployeeId env.description_text) :
    mainTermination env =
      ([MainStep.fetchTicket env.ticket_id, MainStep.printEmployeeId,
        MainStep.printNameError], MainOutcome.returned) ∧
    MainStep.hrmsLogin ∉ (mainTermination env).1 ∧
    MainStep.hrmsReport ∉ (mainTermination env).1 ∧
    MainStep.requesterSearchCall ∉ (mainTermination env).1 ∧
    MainStep.agentSearchCall ∉ (mainTermination env).1 ∧
    MainStep.managerLookupCall ∉ (mainTermination env).1 ∧
    MainStep.catalogWriteCall ∉ (mainTermination env).1 ∧
    MainStep.printNameError ∈ (mainTermination env).1 ∧
    (mainTermination env).2 = MainOutcome.returned := by
  obtain ⟨pre, ws, d, ds, rest, hdesc, hws, hd⟩ := hid
  have hex : ∃ v, extract_employee_id env.description_text = some v := by
    rw [hdesc]
    exact empIdSearch_found pre (empIdHere_found ws hws d hd ds rest)
  obtain ⟨v, hv⟩ := hex
  have hng : ¬ ("login_HRMS" ∈ moduleGlobals) := by decide
  have hmain : mainTermination env =
      ([MainStep.fetchTicket env.ticket_id, MainStep.printEmployeeId,
        MainStep.printNameError], MainOutcome.returned) := by
    unfold mainTermination
    rw [if_neg hfetch, hv, if_neg hng]
  refine ⟨hmain, ?_, ?_, ?_, ?_, ?_, ?_, ?_, ?_⟩ <;> simp [hmain]

/-- Witness for C1 on a concrete ticket whose description contains
"Employee ID: 12345". -/
theorem C1_login_name_error_witness :
    mainTermination envC1 =
      ([MainStep.fetchTicket 54157, MainStep.printEmployeeId,
        MainStep.printNameError], MainOutcome.returned) :=
  (C1_login_name_error envC1 (by decide)
    ⟨"Hello. ".data, [' '], '1', "2345".data, " thanks".data,
      by decide, by decide, by decide⟩).1

theorem digitChar_isDigit : ∀ v, v < 10 → isDigitChar (digitChar v) = true := by decide

theorem digitVal_digitChar : ∀ v, v < 10 → digitVal (digitChar v) = v := by decide

theorem isSpaceChar_digitChar : ∀ v, v < 10 → isSpaceChar (digitChar v) = false := by decide

theorem dropWhile_no_space (l : List Char) (h : ∀ c ∈ l, isSpaceChar c = false) :
    l.dropWhile isSpaceChar = l := by
  cases l with
  | nil => rfl
  | cons c cs => simp [List.dropWhile_cons, h c (by simp)]

theorem pyStripL_no_space (l : List Char) (h : ∀ c ∈ l, isSpaceChar c = false) :
    pyStripL l = l := by
  unfold pyStripL
  rw [dropWhile_no_space l h]
  rw [dropWhile_no_space l.reverse (fun c hc => h c (List.mem_reverse.mp hc))]
  exact List.reverse_reverse l

theorem mdyChars_no_space (m d y : Nat) : ∀ c ∈ mdyChars m d y, isSpaceChar c = false := by
  intro c hc
  simp only [mdyChars, pad2, pad4, List.cons_append, List.nil_append, List.mem_cons,
    List.not_mem_nil, or_false] at hc
  rcases hc with rfl | rfl | rfl | rfl | rfl | rfl | rfl | rfl | rfl | rfl <;>
    first
      | decide
      | exact isSpaceChar_digitChar _ (Nat.mod_lt _ (by omega))

theorem monthAlts_pad2_low (m : Nat) (h1 : 1 ≤ m) (h9 : m ≤ 9) (rest : List Char) :
    monthAlts (pad2 m ++ rest) = [(m, rest)] := by
  interval_cases m <;> simp +decide [pad2, monthAlts, digitChar, digitVal]

theorem monthAlts_pad2_high (m : Nat) (h1 : 10 ≤ m) (h2 : m ≤ 12) (rest : List Char) :
    monthAlts (pad2 m ++ rest) = [(m, rest), (1, digitChar (m % 10) :: rest)] := by
  interval_cases m <;> simp +decide [pad2, monthAlts, digitChar, digitVal]

theorem dayAlts_pad2_low (d : Nat) (h1 : 1 ≤ d) (h9 : d ≤ 9) (rest : List Char) :
    dayAlts (pad2 d ++ rest) = [(d, rest)] := by
  interval_cases d <;> simp +decide [pad2, dayAlts, digitChar, digitVal]

theorem dayAlts_pad2_high (d : Nat) (h1 : 10 ≤ d) (h2 : d ≤ 31) (rest : List Char) :
    dayAlts (pad2 d ++ rest) = [(d, rest), (d / 10, digitChar (d % 10) :: rest)] := by
  interval_cases d <;> simp +decide [pad2, dayAlts, digitChar, digitVal]

theorem yearParse_pad4 (y : Nat) (hy : y ≤ 9999) : yearParse (pad4 y) = some (y, []) := by
  have h1 : y / 1000 % 10 < 10 := Nat.mod_lt _ (by omega)
  have h2 : y / 100 % 10 < 10 := Nat.mod_lt _ (by omega)
  have h3 : y / 10 % 10 < 10 := Nat.mod_lt _ (by omega)
  have h4 : y % 10 < 10 := Nat.mod_lt _ (by omega)
  simp only [pad4, yearParse]
  rw [if_pos ⟨digitChar_isDigit _ h1, digitChar_isDigit _ h2,
    digitChar_isDigit _ h3, digitChar_isDigit _ h4⟩]
  rw [digitVal_digitChar _ h1, digitVal_digitChar _ h2,
    digitVal_digitChar _ h3, digitVal_digitChar _ h4]
  congr 1
  congr 1
  omega

-- strptime accepts every canonically padded mm/dd/yyyy rendering.
theorem strptime_mdyChars (m d y : Nat) (hm1 : 1 ≤ m) (hm2 : m ≤ 12)
    (hd1 : 1 ≤ d) (hd2 : d ≤ 31) (hy : y ≤ 9999) :
    strptimeMDY (mdyChars m d y) = some (m, d, y) := by
  have hyr := yearParse_pad4 y hy
  unfold mdyChars strptimeMDY
  rcases Nat.lt_or_ge m 10 with hm9 | hm10 <;> rcases Nat.lt_or_ge d 10 with hd9 | hd10
  · simp [monthAlts_pad2_low m hm1 (by omega), dayAlts_pad2_low d hd1 (by omega),
      firstSome, hyr]
  · simp [monthAlts_pad2_low m hm1 (by omega), dayAlts_pad2_high d hd10 hd2,
      firstSome, hyr]
  · simp [monthAlts_pad2_high m hm10 hm2, dayAlts_pad2_low d hd1 (by omega),
      firstSome, hyr]
  · simp [monthAlts_pad2_high m hm10 hm2, dayAlts_pad2_high d hd10 hd2,
      firstSome, hyr]

theorem firstSome_eq_some {α β : Type} (xs : List α) (f : α → Option β) (b : β)
    (h : firstSome xs f = some b) : ∃ x ∈ xs, f x = some b := by
  induction xs with
  | nil => simp [firstSome] at h
  | cons x xs ih =>
    rw [show firstSome (x :: xs) f = (f x).elim (firstSome xs f) some from rfl] at h
    cases hf : f x with
    | some v =>
      rw [hf, Option.elim_some] at h
      exact ⟨x, List.mem_cons_self x xs, hf.trans h⟩
    | none =>
      rw [hf, Option.elim_none] at h
      obtain ⟨w, hw1, hw2⟩ := ih h
      exact ⟨w, List.mem_cons_of_mem x hw1, hw2⟩

theorem isDigitChar_cases {c : Char} (h : isDigitChar c = true) :
    c = '0' ∨ c = '1' ∨ c = '2' ∨ c = '3' ∨ c = '4' ∨
    c = '5' ∨ c = '6' ∨ c = '7' ∨ c = '8' ∨ c = '9' := by
  simp only [isDigitChar, Bool.or_eq_true, decide_eq_true_eq] at h
  tauto

theorem digitVal_lt {c : Char} (h : isDigitChar c = true) : digitVal c < 10 := by
  rcases isDigitChar_cases h with rfl | rfl | rfl | rfl | rfl | rfl | rfl | rfl | rfl | rfl <;>
    decide

theorem digitVal_pos {c : Char} (h : isDigitChar c = true) (h0 : c ≠ '0') :
    1 ≤ digitVal c := by
  rcases isDigitChar_cases h with rfl | rfl | rfl | rfl | rfl | rfl | rfl | rfl | rfl | rfl <;>
    first | exact absurd rfl h0 | decide

-- Every alternative produced by the %m regex consumes a month token.
theorem monthAlts_sound {t : List Char} {mv : Nat} {r : List Char}
    (h : (mv, r) ∈ monthAlts t) : ∃ ms, t = ms ++ r ∧ monthTok mv ms := by
  match t with
  | [] => simp [monthAlts] at h
  | [c] =>
    by_cases hc : isDigitChar c = true ∧ c ≠ '0'
    · rw [show monthAlts [c] = if isDigitChar c = true ∧ c ≠ '0'
          then [(digitVal c, [])] else [] from rfl, if_pos hc] at h
      have heq := List.mem_singleton.mp h
      have hv := congrArg Prod.fst heq
      have hr := congrArg Prod.snd heq
      simp only at hv hr
      refine ⟨[c], by simp [hr], Or.inr (Or.inr ⟨c, rfl, hc.1, hc.2, hv⟩)⟩
    · rw [show monthAlts [c] = if isDigitChar c = true ∧ c ≠ '0'
          then [(digitVal c, [])] else [] from rfl, if_neg hc] at h
      simp at h
  | c1 :: c2 :: rest =>
    rw [show monthAlts (c1 :: c2 :: rest) =
      (if c1 = '1' ∧ (c2 = '0' ∨ c2 = '1' ∨ c2 = '2')
        then [(10 + digitVal c2, rest)] else []) ++
      (if c1 = '0' ∧ isDigitChar c2 = true ∧ c2 ≠ '0'
        then [(digitVal c2, rest)] else []) ++
      (if isDigitChar c1 = true ∧ c1 ≠ '0'
        then [(digitVal c1, c2 :: rest)] else []) from rfl] at h
    rcases List.mem_append.mp h with h12 | h3
    · rcases List.mem_append.mp h12 with h1 | h2
      · by_cases hc : c1 = '1' ∧ (c2 = '0' ∨ c2 = '1' ∨ c2 = '2')
        · rw [if_pos hc] at h1
          have heq := List.mem_singleton.mp h1
          have hv := congrArg Prod.fst heq
          have hr := congrArg Prod.snd heq
          simp only at hv hr
          refine ⟨[c1, c2], by rw [← hr]; rfl, Or.inl ⟨c2, by rw [hc.1], hc.2, hv⟩⟩
        · rw [if_neg hc] at h1
          simp at h1
      · by_cases hc : c1 = '0' ∧ isDigitChar c2 = true ∧ c2 ≠ '0'
        · rw [if_pos hc] at h2
          have heq := List.mem_singleton.mp h2
          have hv := congrArg Prod.fst heq
          have hr := congrArg Prod.snd heq
          simp only at hv hr
          refine ⟨[c1, c2], by rw [← hr]; rfl,
            Or.inr (Or.inl ⟨c2, by rw [hc.1], hc.2.1, hc.2.2, hv⟩)⟩
        · rw [if_neg hc] at h2
          simp at h2
    · by_cases hc : isDigitChar c1 = true ∧ c1 ≠ '0'
      · rw [if_pos hc] at h3
        have heq := List.mem_singleton.mp h3
        have hv := congrArg Prod.fst heq
        have hr := congrArg Prod.snd heq
        simp only at hv hr
        refine ⟨[c1], by rw [← hr]; rfl, Or.inr (Or.inr ⟨c1, rfl, hc.1, hc.2, hv⟩)⟩
      · rw [if_neg hc] at h3
        simp at h3

-- Every alternative produced by the %d regex consumes a day token.
theorem dayAlts_sound {t : List Char} {dv : Nat} {r : List Char}
    (h : (dv, r) ∈ dayAlts t) : ∃ ds, t = ds ++ r ∧ dayTok dv ds := by
  match t with
  | [] => simp [dayAlts] at h
  | [c] =>
    by_cases hc : isDigitChar c = true ∧ c ≠ '0'
    · rw [show dayAlts [c] = if isDigitChar c = true ∧ c ≠ '0'
          then [(digitVal c, [])] else [] from rfl, if_pos hc] at h
      have heq := List.mem_singleton.mp h
      have hv := congrArg Prod.fst heq
      have hr := congrArg Prod.snd heq
      simp only at hv hr
      refine ⟨[c], by simp [hr], Or.inr (Or.inr (Or.inr ⟨c, rfl, hc.1, hc.2, hv⟩))⟩
    · rw [show dayAlts [c] = if isDigitChar c = true ∧ c ≠ '0'
          then [(digitVal c, [])] else [] from rfl, if_neg hc] at h
      simp at h
  | c1 :: c2 :: rest =>
    rw [show dayAlts (c1 :: c2 :: rest) =
      (if c1 = '3' ∧ (c2 = '0' ∨ c2 = '1')
        then [(30 + digitVal c2, rest)] else []) ++
      (if (c1 = '1' ∨ c1 = '2') ∧ isDigitChar c2 = true
        then [(10 * digitVal c1 + digitVal c2, rest)] else []) ++
      (if c1 = '0' ∧ isDigitChar c2 = true ∧ c2 ≠ '0'
        then [(digitVal c2, rest)] else []) ++
      (if isDigitChar c1 = true ∧ c1 ≠ '0'
        then [(digitVal c1, c2 :: rest)] else []) from rfl] at h
    rcases List.mem_append.mp h with h123 | h4
    · rcases List.mem_append.mp h123 with h12 | h3
      · rcases List.mem_append.mp h12 with h1 | h2
        · by_cases hc : c1 = '3' ∧ (c2 = '0' ∨ c2 = '1')
          · rw [if_pos hc] at h1
            have heq := List.mem_singleton.mp h1
            have hv := congrArg Prod.fst heq
            have hr := congrArg Prod.snd heq
            simp only at hv hr
            refine ⟨[c1, c2], by rw [← hr]; rfl, Or.inl ⟨c2, by rw [hc.1], hc.2, hv⟩⟩
          · rw [if_neg hc] at h1
            simp at h1
        · by_cases hc : (c1 = '1' ∨ c1 = '2') ∧ isDigitChar c2 = true
          · rw [if_pos hc] at h2
            have heq := List.mem_singleton.mp h2
            have hv := congrArg Prod.fst heq
            have hr := congrArg Prod.snd heq
            simp only at hv hr
            refine ⟨[c1, c2], by rw [← hr]; rfl,
              Or.inr (Or.inl ⟨c1, c2, rfl, hc.1, hc.2, hv⟩)⟩
          · rw [if_neg hc] at h2
            simp at h2
      · by_cases hc : c1 = '0' ∧ isDigitChar c2 = true ∧ c2 ≠ '0'
        · rw [if_pos hc] at h3
          have heq := List.mem_singleton.mp h3
          have hv := congrArg Prod.fst heq
          have hr := congrArg Prod.snd heq
          simp only at hv hr
          refine ⟨[c1, c2], by rw [← hr]; rfl,
            Or.inr (Or.inr (Or.inl ⟨c2, by rw [hc.1], hc.2.1, hc.2.2, hv⟩))⟩
        · rw [if_neg hc] at h3
          simp at h3
    · by_cases hc : isDigitChar c1 = true ∧ c1 ≠ '0'
      · rw [if_pos hc] at h4
        have heq := List.mem_singleton.mp h4
        have hv := congrArg Prod.fst heq
        have hr := congrArg Prod.snd heq
        simp only at hv hr
        refine ⟨[c1], by rw [← hr]; rfl,
          Or.inr (Or.inr (Or.inr ⟨c1, rfl, hc.1, hc.2, hv⟩))⟩
      · rw [if_neg hc] at h4
        simp at h4

theorem yearParse_sound {t : List Char} {y : Nat} {r : List Char}
    (h : yearParse t = some (y, r)) : ∃ ys, t = ys ++ r ∧ yearTok y ys := by
  match t with
  | [] => simp [yearParse] at h
  | [a] => simp [yearParse] at h
  | [a, b] => simp [yearParse] at h
  | [a, b, c] => simp [yearParse] at h
  | a :: b :: c :: d :: rest =>
    by_cases hc : isDigitChar a = true ∧ isDigitChar b = true ∧
        isDigitChar c = true ∧ isDigitChar d = true
    · rw [show yearParse (a :: b :: c :: d :: rest) =
        if isDigitChar a = true ∧ isDigitChar b = true ∧
            isDigitChar c = true ∧ isDigitChar d = true then
          some (((digitVal a * 10 + digitVal b) * 10 + digitVal c) * 10 + digitVal d, rest)
        else none from rfl, if_pos hc] at h
      have hv := congrArg (fun o => (Option.getD o (0, [])).1) h
      have hr := congrArg (fun o => (Option.getD o (0, [])).2) h
      simp only [Option.getD_some] at hv hr
      refine ⟨[a, b, c, d], by rw [← hr]; rfl,
        a, b, c, d, rfl, hc.1, hc.2.1, hc.2.2.1, hc.2.2.2, hv.symm⟩
    · rw [show yearParse (a :: b :: c :: d :: rest) =
        if isDigitChar a = true ∧ isDigitChar b = true ∧
            isDigitChar c = true ∧ isDigitChar d = true then
          some (((digitVal a * 10 + digitVal b) * 10 + digitVal c) * 10 + digitVal d, rest)
        else none from rfl, if_neg hc] at h
      simp at h

theorem monthTok_bounds {m : Nat} {ms : List Char} (h : monthTok m ms) :
    1 ≤ m ∧ m ≤ 12 := by
  rcases h with ⟨c, _, hc, hm⟩ | ⟨c, _, hdig, h0, hm⟩ | ⟨c, _, hdig, h0, hm⟩
  · subst hm
    rcases hc with rfl | rfl | rfl <;> decide
  · subst hm
    exact ⟨digitVal_pos hdig h0, by have := digitVal_lt hdig; omega⟩
  · subst hm
    exact ⟨digitVal_pos hdig h0, by have := digitVal_lt hdig; omega⟩

theorem dayTok_bounds {d : Nat} {ds : List Char} (h : dayTok d ds) :
    1 ≤ d ∧ d ≤ 31 := by
  rcases h with ⟨c, _, hc, hd⟩ | ⟨c1, c2, _, hc1, hdig, hd⟩ |
    ⟨c, _, hdig, h0, hd⟩ | ⟨c, _, hdig, h0, hd⟩
  · subst hd
    rcases hc with rfl | rfl <;> decide
  · subst hd
    have h2 := digitVal_lt hdig
    rcases hc1 with rfl | rfl
    · have e : digitVal '1' = 1 := by decide
      omega
    · have e : digitVal '2' = 2 := by decide
      omega
  · subst hd
    exact ⟨digitVal_pos hdig h0, by have := digitVal_lt hdig; omega⟩
  · subst hd
    exact ⟨digitVal_pos hdig h0, by have := digitVal_lt hdig; omega⟩

theorem yearTok_bound {y : Nat} {ys : List Char} (h : yearTok y ys) : y ≤ 9999 := by
  obtain ⟨a, b, c, d, _, ha, hb, hc, hd, hy⟩ := h
  have h1 := digitVal_lt ha
  have h2 := digitVal_lt hb
  have h3 := digitVal_lt hc
  have h4 := digitVal_lt hd
  omega

-- A successful strptime parse decomposes the input into the three tokens.
theorem strptimeMDY_sound {t : List Char} {m d y : Nat}
    (h : strptimeMDY t = some (m, d, y)) :
    ∃ ms ds ys, monthTok m ms ∧ dayTok d ds ∧ yearTok y ys ∧
      t = ms ++ '/' :: (ds ++ '/' :: ys) := by
  obtain ⟨mr, hmem, hf⟩ := firstSome_eq_some _ _ _ h
  obtain ⟨mv, r1⟩ := mr
  simp only at hf
  split at hf
  · rename_i c r2
    split at hf
    · rename_i hc
      subst hc
      obtain ⟨dr, hdmem, hg⟩ := firstSome_eq_some _ _ _ hf
      obtain ⟨dv, r3⟩ := dr
      simp only at hg
      split at hg
      · rename_i c2 r4
        split at hg
        · rename_i hc2
          subst hc2
          split at hg
          · rename_i yv heq
            simp only [Option.some.injEq, Prod.mk.injEq] at hg
            obtain ⟨rfl, rfl, rfl⟩ := hg
            obtain ⟨ms, ht, hmTok⟩ := monthAlts_sound hmem
            obtain ⟨ds, hr2, hdTok⟩ := dayAlts_sound hdmem
            obtain ⟨ys, hr4, hyTok⟩ := yearParse_sound heq
            rw [List.append_nil] at hr4
            refine ⟨ms, ds, ys, hmTok, hdTok, hyTok, ?_⟩
            rw [ht, hr2, hr4]
          · simp at hg
        · simp at hg
      · simp at hg
    · simp at hf
  · simp at hf

-- An ok result of convert_date_format exhibits a valid accepted decomposition
-- of the stripped input.
theorem convert_ok_sound (s : String) (r : String)
    (h : convert_date_format s = Except.ok r) :
    ∃ m d y, validMDY m d y ∧ acceptedMDY (pyStripL s.data) m d y := by
  unfold convert_date_format at h
  split at h
  · simp at h
  · rename_i m d y heq
    split at h
    · rename_i hcond
      obtain ⟨ms, ds, ys, hm, hd, hy, ht⟩ := strptimeMDY_sound heq
      exact ⟨m, d, y,
        ⟨(monthTok_bounds hm).1, (monthTok_bounds hm).2, hcond.2.1, hcond.2.2, hcond.1,
          yearTok_bound hy⟩,
        ms, ds, ys, hm, hd, hy, ht⟩
    · simp at h

theorem daysInMonth_le (y m : Nat) : daysInMonth y m ≤ 31 := by
  unfold daysInMonth
  split_ifs <;> omega

/-- C10: convert_date_format maps the input "03/14/2024" to "2024-03-14" and,
generally, maps every canonical MM/DD/YYYY rendering of a valid calendar date
(shown here for four-digit years from 1000, where strftime %Y padding is
platform-independent) to the corresponding YYYY-MM-DD string; and for every
input string whose stripped form admits no valid-date decomposition under the
%m/%d/%Y pattern it raises an error rather than silently passing the value
through. Two concrete failing inputs are included: an out-of-range calendar
day and an already-ISO string. -/
theorem C10_convert_date_format :
    convert_date_format "03/14/2024" = Except.ok "2024-03-14" ∧
    (∀ m d y, 1 ≤ m → m ≤ 12 → 1 ≤ d → d ≤ daysInMonth y m → 1000 ≤ y → y ≤ 9999 →
      convert_date_format (mdyString m d y) = Except.ok (String.mk (isoFormat y m d))) ∧
    (∀ s : String, (∀ m d y, validMDY m d y → ¬ acceptedMDY (pyStripL s.data) m d y) →
      ∃ e, convert_date_format s = Except.error e) ∧
    (∃ e, convert_date_format "02/30/2024" = Except.error e) ∧
    (∃ e, convert_date_format "2024-03-14" = Except.error e) := by
  refine ⟨?_, ?_, ?_, ?_, ?_⟩
  · rfl
  · intro m d y hm1 hm2 hd1 hdim hy1 hy2
    have hd31 : d ≤ 31 := le_trans hdim (daysInMonth_le y m)
    have hy0 : 1 ≤ y := by omega
    have hdata : (mdyString m d y).data = mdyChars m d y := rfl
    have hstrip : pyStripL (mdyChars m d y) = mdyChars m d y :=
      pyStripL_no_space _ (mdyChars_no_space m d y)
    simp only [convert_date_format, hdata, hstrip,
      strptime_mdyChars m d y hm1 hm2 hd1 hd31 hy2]
    rw [if_pos ⟨hy0, hd1, hdim⟩]
  · intro s hnone
    cases hconv : convert_date_format s with
    | error e => exact ⟨e, rfl⟩
    | ok r =>
      obtain ⟨m, d, y, hval, hacc⟩ := convert_ok_sound s r hconv
      exact absurd hacc (hnone m d y hval)
  · exact ⟨_, rfl⟩
  · exact ⟨_, rfl⟩

/-- Witness for C10: the general mapping applied at 12/31/1999. -/
theorem C10_convert_date_format_witness :
    convert_date_format (mdyString 12 31 1999) = Except.ok "1999-12-31" := by
  have h := C10_convert_date_format.2.1 12 31 1999 (by omega) (by omega) (by omega)
    (by decide) (by omega) (by omega)
  rw [h]
  rfl
